import Mathlib

/-!
Verification of the publish-date extraction engine of the postby.io
repository.  The engine (`extractPublishDate`) takes raw HTML, a site
identifier and an optional source URL, locates a date-bearing DOM node via a
per-site selector registry, and runs an ordered cascade of parsing
strategies until one yields a calendar date.

The development shallowly embeds the TypeScript sources:
* the main engine variant (the file defining the seven-entry in-memory
  registry together with the URL override and the kakao fallback) in
  namespace `Selectors16`;
* the crawler variant `crawler/src/selectors.ts` in namespace `Crawler`;
* the file-backed parser variant whose cascade starts with a direct
  `new Date(text)` parse in namespace `P001`;
* the labeled-field (`storyPublishDate`) strategy of the remaining
  file-backed variant in namespace `P000`.

JavaScript runtime primitives are modelled as total Lean functions:
`new Date(year, month, day)` by ECMA-262 `MakeDay` (months zero-indexed,
out-of-range components roll over, years 0..99 shifted to 1900..1999),
`Date.parse` by the ECMA-262 Date Time String Format (ISO 8601; the
implementation-specific legacy formats V8 additionally accepts are modelled
as unparseable, and every concrete input used in a theorem below stays
inside the standardized ISO fragment), `parseInt` by decimal prefix
parsing, and regular-expression matching by dedicated leftmost-match
scanners, one per pattern of the source.  The external DOM library
(cheerio) is spec-mandated to tolerate malformed markup without throwing,
so document loading is modelled as an arbitrary total function
`load : String -> Dom`; every theorem quantifies over it.
-/

/-! ## Calendar arithmetic (ECMA-262 day numbers) -/

/-- Leap year predicate of the proleptic Gregorian calendar. -/
def isLeapYear (y : Int) : Bool :=
  (y.emod 4 = 0 && y.emod 100 != 0) || y.emod 400 = 0

/-- Number of days of month `m` (1-indexed) of year `y`. -/
def daysInMonth (y : Int) (m : Int) : Int :=
  if m = 2 then (if isLeapYear y then 29 else 28)
  else if m = 4 || m = 6 || m = 9 || m = 11 then 30
  else 31

/-- Days since 1970-01-01 of the civil date `(y, m, d)` with `m` 1-indexed;
`d` may lie outside `[1, daysInMonth y m]`, in which case the result rolls
over linearly, exactly as ECMA-262 `MakeDay` does. -/
def daysFromCivil (y m d : Int) : Int :=
  let y2 := y - (if m ≤ 2 then 1 else 0)
  let era := y2.fdiv 400
  let yoe := y2 - era * 400
  let mp := (m + 9).emod 12
  let doy := (153 * mp + 2).fdiv 5 + d - 1
  let doe := yoe * 365 + yoe.fdiv 4 - yoe.fdiv 100 + doy
  era * 146097 + doe - 719468

/-- Milliseconds since the epoch of civil date `(y, m, d)`, `m` 1-indexed.
Used in theorem statements to name concrete calendar dates. -/
def dateYMD (y m d : Int) : Int :=
  86400000 * daysFromCivil y m d

/-- ECMA-262 `MakeDay`: day number of `new Date(y, m, d)` with `m`
ZERO-indexed and arbitrary; month overflow shifts the year, day overflow
rolls over into following months. -/
def jsMakeDay (y m d : Int) : Int :=
  daysFromCivil (y + m.fdiv 12) (m.emod 12 + 1) d

/-- Time value (ms) of `new Date(y, m, d)` before validity clipping,
including the ECMA-262 two-digit-year adjustment (0..99 maps to
1900..1999). -/
def jsMakeDateMs (y m d : Int) : Int :=
  let yy := if 0 ≤ y && y ≤ 99 then 1900 + y else y
  86400000 * jsMakeDay yy m d

/-- Result of `new Date(y, m, d)` followed by the `isNaN(date.getTime())`
validity test of the source: `none` models an Invalid Date (a `NaN`
component, i.e. a `none` argument, or a time value outside the ECMA-262
±8.64e15 ms range); otherwise the finite time value. -/
def jsNewDateYMD (y m d : Option Int) : Option Int :=
  match y, m, d with
  | some y, some m, some d =>
    let ms := jsMakeDateMs y m d
    if ms.natAbs ≤ 8640000000000000 then some ms else none
  | _, _, _ => none

example : daysFromCivil 1970 1 1 = 0 := by decide
example : daysFromCivil 2025 12 24 = 20446 := by decide
example : jsNewDateYMD (some 2025) (some 11) (some 24) = some (dateYMD 2025 12 24) := by decide
example : jsNewDateYMD (some 2025) (some 1) (some 30) = some (dateYMD 2025 3 2) := by decide
example : jsNewDateYMD (some 2025) none (some 1) = none := by decide

/-! ## JavaScript string primitives -/

/-- ASCII whitespace, the fragment of the JavaScript `\s` class (and of
`String.prototype.trim`) that the engine's inputs exercise. -/
def isJsSpace (c : Char) : Bool :=
  c = ' ' || c = '\t' || c = '\n' || c = '\r' || c = '\x0b' || c = '\x0c'

/-- Character-list core of `String.prototype.trim`. -/
def trimChars (l : List Char) : List Char :=
  ((l.dropWhile isJsSpace).reverse.dropWhile isJsSpace).reverse

/-- JavaScript `String.prototype.trim`. -/
def jsTrim (s : String) : String :=
  String.mk (trimChars s.data)

/-- Decimal value of a digit list. -/
def digitsVal (l : List Char) : Nat :=
  l.foldl (fun acc c => 10 * acc + (c.toNat - 48)) 0

/-- JavaScript `parseInt` (base 10): skip leading whitespace, optional
sign, then a maximal run of decimal digits; `none` models `NaN` (no
digits).  Trailing garbage is ignored, as in JavaScript. -/
def jsParseInt (s : String) : Option Int :=
  let l := s.data.dropWhile isJsSpace
  let (neg, l) :=
    match l with
    | '-' :: r => (true, r)
    | '+' :: r => (false, r)
    | r => (false, r)
  let ds := l.takeWhile Char.isDigit
  if ds.isEmpty then none
  else some (if neg then -(digitsVal ds : Int) else (digitsVal ds : Int))

/-- Does `needle` occur as a contiguous sublist of the argument? -/
def listContainsSub (needle : List Char) : List Char → Bool
  | [] => needle.isEmpty
  | c :: rest => needle.isPrefixOf (c :: rest) || listContainsSub needle rest

/-- JavaScript `String.prototype.includes`. -/
def jsIncludes (s sub : String) : Bool :=
  listContainsSub sub.data s.data

/-- Character-list splitter with explicit fuel (the fuel is the length of
the scanned list, so it never runs out); models non-overlapping
left-to-right splitting on a non-empty separator. -/
def splitFuel (sep : List Char) : Nat → List Char → List Char → List String
  | 0, l, acc => [String.mk (acc.reverse ++ l)]
  | _ + 1, [], acc => [String.mk acc.reverse]
  | n + 1, c :: rest, acc =>
    if sep.isPrefixOf (c :: rest) then
      String.mk acc.reverse :: splitFuel sep n ((c :: rest).drop sep.length) []
    else
      splitFuel sep n rest (c :: acc)

/-- JavaScript `String.prototype.split` with a non-empty string
separator. -/
def jsSplit (s sep : String) : List String :=
  splitFuel sep.data s.data.length s.data []

example : jsTrim "  2025.12.24 " = "2025.12.24" := by decide
example : jsParseInt "0025" = some 25 := by decide
example : jsParseInt "27 garbage" = some 27 := by decide
example : jsParseInt "Mar" = none := by decide
example : jsIncludes "YYYY년 MM월 DD일" "datetime" = false := by decide
example : jsIncludes "data-testid=x MMM DD, YYYY" "data-testid" = true := by decide
example : jsSplit "Mar 27, 2023" ", " = ["Mar 27", "2023"] := by decide
example : jsSplit "a, b, " ", " = ["a", "b", ""] := by decide

/-! ## Regular-expression scanners

One dedicated leftmost-match scanner per regular expression of the source.
`scanFirst p` tries `p` at every position from the left, as JavaScript
`String.prototype.match` (without the `g` flag) does; each `p` implements
the backtracking order of the corresponding pattern. -/

/-- Try a position-anchored matcher at every suffix, leftmost first. -/
def scanFirst (p : List Char → Option α) : List Char → Option α
  | [] => p []
  | c :: rest =>
    match p (c :: rest) with
    | some r => some r
    | none => scanFirst p rest

/-- Take exactly `n` decimal digits. -/
def takeExactDigits : Nat → List Char → Option (List Char × List Char)
  | 0, l => some ([], l)
  | n + 1, c :: rest =>
    if c.isDigit then
      match takeExactDigits n rest with
      | some (ds, r) => some (c :: ds, r)
      | none => none
    else none
  | _ + 1, [] => none

/-- Greedy `\d{1,2}` at the end of a pattern (no following requirement). -/
def takeUpTo2Digits : List Char → Option (List Char × List Char)
  | [] => none
  | [a] => if a.isDigit then some ([a], []) else none
  | a :: b :: r =>
    if a.isDigit then
      if b.isDigit then some ([a, b], r) else some ([a], b :: r)
    else none

/-- Greedy `\d{1,2}` immediately followed by the literal character `c`
(which is never itself a digit in the source's patterns), with the
backtracking order of a backtracking regex engine: two digits then `c`,
else one digit then `c`.  Consumes the terminator. -/
def digits12ThenChar (c : Char) : List Char → Option (List Char × List Char)
  | a :: b :: c2 :: r =>
    if a.isDigit && b.isDigit && c2 = c then some ([a, b], r)
    else if a.isDigit && b = c then some ([a], c2 :: r)
    else none
  | [a, b] => if a.isDigit && b = c then some ([a], []) else none
  | _ => none

/-- Require at least one whitespace character, then consume the maximal
whitespace run (`\s+`; every use in the source is followed by a
non-whitespace character class, so pure greed is exact). -/
def sp1 : List Char → Option (List Char)
  | c :: r => if isJsSpace c then some (r.dropWhile isJsSpace) else none
  | [] => none

/-- Anchored matcher of `(\d{4})년\s*(\d{1,2})월\s*(\d{1,2})일`. -/
def koreanAt (l : List Char) : Option (String × String × String) :=
  match takeExactDigits 4 l with
  | none => none
  | some (y, r1) =>
    match r1 with
    | '년' :: r2 =>
      let r3 := r2.dropWhile isJsSpace
      match digits12ThenChar '월' r3 with
      | none => none
      | some (mo, r4) =>
        let r5 := r4.dropWhile isJsSpace
        match digits12ThenChar '일' r5 with
        | none => none
        | some (dd, _) => some (String.mk y, String.mk mo, String.mk dd)
    | _ => none

/-- `text.match(/(\d{4})년\s*(\d{1,2})월\s*(\d{1,2})일/)`, capture
strings. -/
def scanKorean (s : String) : Option (String × String × String) :=
  scanFirst koreanAt s.data

/-- Anchored matcher of `(\d{4})\.\s*(\d{1,2})\.\s*(\d{1,2})` (the dotted
pattern; a trailing dot after the day is simply not consumed). -/
def dotAt (l : List Char) : Option (String × String × String) :=
  match takeExactDigits 4 l with
  | none => none
  | some (y, r1) =>
    match r1 with
    | '.' :: r2 =>
      let r3 := r2.dropWhile isJsSpace
      match digits12ThenChar '.' r3 with
      | none => none
      | some (mo, r4) =>
        let r5 := r4.dropWhile isJsSpace
        match takeUpTo2Digits r5 with
        | none => none
        | some (dd, _) => some (String.mk y, String.mk mo, String.mk dd)
    | _ => none

/-- `text.match(/(\d{4})\.\s*(\d{1,2})\.\s*(\d{1,2})/)`. -/
def scanDot (s : String) : Option (String × String × String) :=
  scanFirst dotAt s.data

/-- Anchored matcher of `(\d{4})-(\d{2})-(\d{2})`. -/
def isoAt (l : List Char) : Option (String × String × String) :=
  match takeExactDigits 4 l with
  | none => none
  | some (y, r1) =>
    match r1 with
    | '-' :: r2 =>
      match takeExactDigits 2 r2 with
      | none => none
      | some (mo, r3) =>
        match r3 with
        | '-' :: r4 =>
          match takeExactDigits 2 r4 with
          | none => none
          | some (dd, _) => some (String.mk y, String.mk mo, String.mk dd)
        | _ => none
    | _ => none

/-- `text.match(/(\d{4})-(\d{2})-(\d{2})/)`. -/
def scanIso (s : String) : Option (String × String × String) :=
  scanFirst isoAt s.data

/-- After the day group of the forward English pattern: `,?\s+(\d{4})`.
An optional comma (if present it must be followed by whitespace, since a
comma is not whitespace the regex cannot succeed by leaving it), then
`\s+`, then exactly four digits, captured. -/
def commaSpYear (l : List Char) : Option String :=
  let l1 := match l with | ',' :: r => r | r => r
  match sp1 l1 with
  | none => none
  | some r2 =>
    match takeExactDigits 4 r2 with
    | none => none
    | some (y, _) => some (String.mk y)

/-- Anchored matcher of `([A-Z][a-z]{2})\s+(\d{1,2}),?\s+(\d{4})` (month
capture, day capture, year capture), with the greedy-day backtracking of a
backtracking engine. -/
def engFwdAt (l : List Char) : Option (String × String × String) :=
  match l with
  | u :: a :: b :: r =>
    if u.isUpper && a.isLower && b.isLower then
      match sp1 r with
      | none => none
      | some r2 =>
        match r2 with
        | d1 :: d2 :: rest =>
          if d1.isDigit then
            if d2.isDigit then
              match commaSpYear rest with
              | some y => some (String.mk [u, a, b], String.mk [d1, d2], y)
              | none =>
                match commaSpYear (d2 :: rest) with
                | some y => some (String.mk [u, a, b], String.mk [d1], y)
                | none => none
            else
              match commaSpYear (d2 :: rest) with
              | some y => some (String.mk [u, a, b], String.mk [d1], y)
              | none => none
          else none
        | _ => none
    else none
  | _ => none

/-- `text.match(/([A-Z][a-z]{2})\s+(\d{1,2}),?\s+(\d{4})/)`. -/
def scanEngFwd (s : String) : Option (String × String × String) :=
  scanFirst engFwdAt s.data

/-- After the day group of the reversed English pattern:
`\s+([A-Z][a-z]{2})\s+(\d{4})`, returning (month, year) captures. -/
def spMonthYear (l : List Char) : Option (String × String) :=
  match sp1 l with
  | none => none
  | some r =>
    match r with
    | u :: a :: b :: r2 =>
      if u.isUpper && a.isLower && b.isLower then
        match sp1 r2 with
        | none => none
        | some r3 =>
          match takeExactDigits 4 r3 with
          | none => none
          | some (y, _) => some (String.mk [u, a, b], String.mk y)
      else none
    | _ => none

/-- Anchored matcher of `(\d{1,2})\s+([A-Z][a-z]{2})\s+(\d{4})` (day
capture, month capture, year capture). -/
def engRevAt (l : List Char) : Option (String × String × String) :=
  match l with
  | d1 :: d2 :: rest =>
    if d1.isDigit then
      if d2.isDigit then
        match spMonthYear rest with
        | some (m, y) => some (String.mk [d1, d2], m, y)
        | none =>
          match spMonthYear (d2 :: rest) with
          | some (m, y) => some (String.mk [d1], m, y)
          | none => none
      else
        match spMonthYear (d2 :: rest) with
        | some (m, y) => some (String.mk [d1], m, y)
        | none => none
    else none
  | [d1] => if d1.isDigit then none else none
  | [] => none

/-- `text.match(/(\d{1,2})\s+([A-Z][a-z]{2})\s+(\d{4})/)`. -/
def scanEngRev (s : String) : Option (String × String × String) :=
  scanFirst engRevAt s.data

/-- Anchored matcher of `(\d{4})\.(\d{2})\.\s*(\d{2})` (the crawler
variant's span pattern: zero-padded month, optional whitespace before the
day). -/
def spanCrAt (l : List Char) : Option (String × String × String) :=
  match takeExactDigits 4 l with
  | none => none
  | some (y, r1) =>
    match r1 with
    | '.' :: r2 =>
      match takeExactDigits 2 r2 with
      | none => none
      | some (mo, r3) =>
        match r3 with
        | '.' :: r4 =>
          let r5 := r4.dropWhile isJsSpace
          match takeExactDigits 2 r5 with
          | none => none
          | some (dd, _) => some (String.mk y, String.mk mo, String.mk dd)
        | _ => none
    | _ => none

/-- `spanText.match(/(\d{4})\.(\d{2})\.\s*(\d{2})/)`. -/
def scanSpanCr (s : String) : Option (String × String × String) :=
  scanFirst spanCrAt s.data

/-- Fully anchored test `/^\d{4}\.\d{2}\.\d{2}$/` (the kakao
`data-v` fallback filter). -/
def strictDotFull (s : String) : Bool :=
  match takeExactDigits 4 s.data with
  | none => false
  | some (_, r1) =>
    match r1 with
    | '.' :: r2 =>
      match takeExactDigits 2 r2 with
      | none => false
      | some (_, r3) =>
        match r3 with
        | '.' :: r4 =>
          match takeExactDigits 2 r4 with
          | some (_, []) => true
          | _ => false
        | _ => false
    | _ => false

example : scanKorean "2025년 12월 24일" = some ("2025", "12", "24") := by decide
example : scanKorean "게시 2025년12월24일 글" = some ("2025", "12", "24") := by decide
example : scanDot "2025. 12. 24." = some ("2025", "12", "24") := by decide
example : scanDot "2025.12.24" = some ("2025", "12", "24") := by decide
example : scanDot "2025.1.2" = some ("2025", "1", "2") := by decide
example : scanDot "2025.123.4" = none := by decide
example : scanDot "2025-12-24" = none := by decide
example : scanIso "2025-12-24" = some ("2025", "12", "24") := by decide
example : scanIso "x 2025-12-24T10:00:00Z" = some ("2025", "12", "24") := by decide
example : scanEngFwd "Dec 24, 2025" = some ("Dec", "24", "2025") := by decide
example : scanEngFwd "Dec 5 2021" = some ("Dec", "5", "2021") := by decide
example : scanEngFwd "24 Dec 2025" = none := by decide
example : scanEngFwd "Dec 24,2025" = none := by decide
example : scanEngRev "24 Dec 2025" = some ("24", "Dec", "2025") := by decide
example : scanEngRev "Dec 24, 2025" = none := by decide
example : scanSpanCr "2025.12. 24" = some ("2025", "12", "24") := by decide
example : strictDotFull "2025.12.24" = true := by decide
example : strictDotFull "2025.12.24 " = false := by decide

/-! ## `Date.parse` (ECMA-262 Date Time String Format) -/

/-- Parse `hh:mm[:ss[.sss]][Z]` after the `T` of an ISO datetime; returns
the millisecond offset within the day.  An explicit numeric timezone
offset is not modelled (no input of this development carries one); without
a `Z` the ECMA local-time interpretation coincides with UTC because the
runtime is modelled at UTC. -/
def parseIsoTime (l : List Char) : Option Int :=
  match takeExactDigits 2 l with
  | none => none
  | some (hh, r1) =>
    match r1 with
    | ':' :: r2 =>
      match takeExactDigits 2 r2 with
      | none => none
      | some (mi, r3) =>
        let secMs : Option (Nat × List Char) :=
          match r3 with
          | ':' :: r4 =>
            match takeExactDigits 2 r4 with
            | none => none
            | some (ss, r5) =>
              match r5 with
              | '.' :: r6 =>
                match takeExactDigits 3 r6 with
                | none => none
                | some (ms, r7) => some (1000 * digitsVal ss + digitsVal ms, r7)
              | _ => some (1000 * digitsVal ss, r5)
          | _ => some (0, r3)
        match secMs with
        | none => none
        | some (sms, r8) =>
          let done : Bool := r8 = [] || r8 = ['Z']
          if done && digitsVal hh ≤ 23 && digitsVal mi ≤ 59 && sms ≤ 59999 then
            some (3600000 * (digitsVal hh : Int) + 60000 * (digitsVal mi : Int) + (sms : Int))
          else none
    | _ => none

/-- Model of `new Date(string)` / `Date.parse`: the ECMA-262 Date Time
String Format `YYYY-MM-DD[THH:mm[:ss[.sss]][Z]]`, with full range
validation of the components (as V8 performs for ISO strings); every other
string — including V8's implementation-specific legacy formats — is
modelled as unparseable (`none`, i.e. an Invalid Date).  Every concrete
string a theorem below feeds to this function is inside the ISO
fragment, where the model agrees with the runtime. -/
def jsParseDate (s : String) : Option Int :=
  match takeExactDigits 4 s.data with
  | none => none
  | some (y, r1) =>
    match r1 with
    | '-' :: r2 =>
      match takeExactDigits 2 r2 with
      | none => none
      | some (mo, r3) =>
        match r3 with
        | '-' :: r4 =>
          match takeExactDigits 2 r4 with
          | none => none
          | some (dd, r5) =>
            let yv : Int := digitsVal y
            let mv : Int := digitsVal mo
            let dv : Int := digitsVal dd
            if 1 ≤ mv && mv ≤ 12 && 1 ≤ dv && dv ≤ daysInMonth yv mv then
              match r5 with
              | [] => some (dateYMD yv mv dv)
              | 'T' :: r6 =>
                match parseIsoTime r6 with
                | some tms => some (dateYMD yv mv dv + tms)
                | none => none
              | _ => none
            else none
        | _ => none
    | _ => none

example : jsParseDate "2025-12-23" = some (dateYMD 2025 12 23) := by decide
example : jsParseDate "2025-12-24T10:00:00Z" = some (dateYMD 2025 12 24 + 36000000) := by decide
example : jsParseDate "2025-02-31" = none := by decide
example : jsParseDate "2025년 12월 24일" = none := by decide
example : jsParseDate "Dec 24, 2025" = none := by decide
example : jsParseDate "24 Dec 2025" = none := by decide
example : jsParseDate "2025.12.18" = none := by decide
example : jsParseDate "" = none := by decide

/-! ## Month-name table -/

/-- The three-letter month table shared verbatim by every source variant
(`monthMap` / `monthNames`): abbreviation to zero-indexed month, `none`
modelling an `undefined` lookup. -/
def monthMap (s : String) : Option Int :=
  if s = "Jan" then some 0
  else if s = "Feb" then some 1
  else if s = "Mar" then some 2
  else if s = "Apr" then some 3
  else if s = "May" then some 4
  else if s = "Jun" then some 5
  else if s = "Jul" then some 6
  else if s = "Aug" then some 7
  else if s = "Sep" then some 8
  else if s = "Oct" then some 9
  else if s = "Nov" then some 10
  else if s = "Dec" then some 11
  else none

/-! ## DOM model

The engines locate elements with cheerio (`cheerio.load(html)` followed by
a CSS-selector query).  cheerio is an external library whose contract —
stated by the spec as a hard requirement — is to tolerate arbitrary
malformed markup without throwing; it is therefore modelled as an
arbitrary TOTAL function `load : String → Dom` over which every theorem
quantifies, where a `Dom` maps a selector string to the (possibly empty)
list of matched elements. -/

/-- A DOM element as the engines observe it: text content, attribute list,
inner markup. -/
structure Elem where
  text : String
  attrs : List (String × String)
  innerHtml : String
deriving DecidableEq

/-- Attribute lookup on a single element (`undefined` as `none`). -/
def Elem.attr (e : Elem) (name : String) : Option String :=
  (e.attrs.find? (fun p => p.fst = name)).map (fun p => p.snd)

/-- A queryable document: CSS selector string to matched element list. -/
structure Dom where
  query : String → List Elem

/-- cheerio `element.text()` on a selection: concatenation of the matched
elements' text contents in document order. -/
def setText : List Elem → String
  | [] => ""
  | e :: rest => e.text ++ setText rest

/-- cheerio `element.attr(name)` on a selection: the attribute of the
first matched element, `undefined` (`none`) on an empty selection. -/
def setAttr (l : List Elem) (name : String) : Option String :=
  match l with
  | [] => none
  | e :: _ => e.attr name

/-- cheerio `element.html()` on a selection: inner markup of the first
matched element, `null` (`none`) on an empty selection. -/
def setHtml : List Elem → Option String
  | [] => none
  | e :: _ => some e.innerHtml

/-- A one-selector document: the given selector matches exactly the given
element, every other selector matches nothing.  Used as concrete witness
input. -/
def singletonDom (sel : String) (e : Elem) : Dom :=
  ⟨fun s => if s = sel then [e] else []⟩

/-- A loader returning the same one-selector document for every HTML
string; concrete witness stand-in for cheerio. -/
def singletonLoad (sel : String) (e : Elem) : String → Dom :=
  fun _ => singletonDom sel e

theorem setText_single (e : Elem) : setText [e] = e.text := by
  show e.text ++ "" = e.text
  cases e with
  | mk t a i =>
    cases t with
    | mk data => show String.mk (data ++ []) = String.mk data
                 rw [List.append_nil]

/-! ## The `<time ... datetime="...">` markup probe

The main variant's embedded-`<time>` strategy matches the raw inner markup
against `/<time[^>]*datetime="([^"]+)"/`.  The scanner below implements
the backtracking order of that pattern: at each start position, after the
literal `<time`, the greedy `[^>]*` tries the LATEST occurrence of
`datetime="` inside the run of non-`>` characters first, then earlier
ones; the capture `([^"]+)` is the maximal non-quote run, which must be
non-empty and closed by a quote. -/

/-- Suffixes of `l` lying inside the leading run of non-`>` characters
(including `l` itself), collected front to back. -/
def nonGtSuffixes : List Char → List (List Char)
  | [] => []
  | c :: rest => if c = '>' then [] else (c :: rest) :: nonGtSuffixes rest

/-- Try to read `datetime="` then a non-empty maximal `[^"]+` capture
closed by `"` at the very start of `l`. -/
def dtCaptureAt (l : List Char) : Option String :=
  if ("datetime=\"".data).isPrefixOf l then
    let r := l.drop 10
    let cap := r.takeWhile (fun c => c ≠ '"')
    if cap.isEmpty then none
    else match r.drop cap.length with
      | '"' :: _ => some (String.mk cap)
      | _ => none
  else none

/-- Try a list of candidate suffixes in order, first success wins. -/
def firstCapture : List (List Char) → Option String
  | [] => none
  | l :: rest =>
    match dtCaptureAt l with
    | some s => some s
    | none => firstCapture rest

/-- Anchored matcher of `<time[^>]*datetime="([^"]+)"`. -/
def timeTagAt (l : List Char) : Option String :=
  if ("<time".data).isPrefixOf l then
    firstCapture (nonGtSuffixes (l.drop 5)).reverse
  else none

/-- `innerHtml.match(/<time[^>]*datetime="([^"]+)"/)`, capture string. -/
def scanTimeTag (s : String) : Option String :=
  scanFirst timeTagAt s.data

example : scanTimeTag "<div><time class=\"x\" datetime=\"2025-12-23\">d</time></div>"
    = some "2025-12-23" := by decide
example : scanTimeTag "<time>2025-12-23</time>" = none := by decide

/-! ## Plain-text pattern strategies (shared shapes)

Each `tryX` models one `if (match) { ...; if (!isNaN(date.getTime()))
return date; }` block: `none` covers both "pattern did not match" and
"matched but the constructed date is invalid", in which case the source
falls through to the next block. -/

/-- Korean block: `(\d{4})년\s*(\d{1,2})월\s*(\d{1,2})일`, month converted
to zero-index by the source's `parseInt(m) - 1`. -/
def tryKorean (text : String) : Option Int :=
  match scanKorean text with
  | some (y, mo, dd) =>
    jsNewDateYMD (jsParseInt y) ((jsParseInt mo).map (fun m => m - 1)) (jsParseInt dd)
  | none => none

/-- Dotted block: `(\d{4})\.\s*(\d{1,2})\.\s*(\d{1,2})`. -/
def tryDot (text : String) : Option Int :=
  match scanDot text with
  | some (y, mo, dd) =>
    jsNewDateYMD (jsParseInt y) ((jsParseInt mo).map (fun m => m - 1)) (jsParseInt dd)
  | none => none

/-- ISO block: `(\d{4})-(\d{2})-(\d{2})`. -/
def tryIso (text : String) : Option Int :=
  match scanIso text with
  | some (y, mo, dd) =>
    jsNewDateYMD (jsParseInt y) ((jsParseInt mo).map (fun m => m - 1)) (jsParseInt dd)
  | none => none

/-- The main variant's plain-text cascade (its lines 157-192): Korean,
then dotted, then ISO, first success wins. -/
def plainTextCascade (text : String) : Option Int :=
  match tryKorean text with
  | some d => some d
  | none =>
    match tryDot text with
    | some d => some d
    | none => tryIso text

/-- Labeled-field (`storyPublishDate`) parse of the MAIN variant (its
lines 120-153): `text.split(', ')` must give two parts, the first is
re-split on a space into month abbreviation and day, the day is PARSED
from the text, and the date is built as `new Date(year, month, day)` after
the source's `month !== undefined && !isNaN(day) && !isNaN(year)`
guard. -/
def storyParsedDayText (text : String) : Option Int :=
  let parts := jsSplit text ", "
  if parts.length = 2 then
    let datePart := jsSplit (jsTrim (parts.getD 0 "")) " "
    let year := jsParseInt (jsTrim (parts.getD 1 ""))
    if datePart.length = 2 then
      let monthStr := datePart.getD 0 ""
      let day := jsParseInt (datePart.getD 1 "")
      match monthMap monthStr, day, year with
      | some m, some d, some y => jsNewDateYMD (some y) (some m) (some d)
      | _, _, _ => none
    else none
  else none

/-- Labeled-field (`storyPublishDate`) parse of the file-backed variant
and of the crawler variant (part_000 lines 49-61, crawler lines 69-92):
`text.split(', ')` must give two parts, the WHOLE first part (e.g.
"Mar 27") is used as the month-table key, and the date is built as
`new Date(year, month, 1)` — day fixed at 1, no `undefined`/`NaN` guard
before construction (an `undefined` month or `NaN` year yields an Invalid
Date, which the `isNaN` check then discards). -/
def storyFixedDayText (text : String) : Option Int :=
  let parts := jsSplit text ", "
  if parts.length = 2 then
    let monthStr := jsTrim (parts.getD 0 "")
    let year := jsParseInt (jsTrim (parts.getD 1 ""))
    jsNewDateYMD year (monthMap monthStr) (some 1)
  else none

example : storyParsedDayText "Mar 27, 2023" = some (dateYMD 2023 3 27) := by decide
example : storyFixedDayText "Mar 27, 2023" = none := by decide
example : storyFixedDayText "Oct, 2024" = some (dateYMD 2024 10 1) := by decide
example : storyParsedDayText "Oct, 2024" = none := by decide

/-! ## Main engine variant (`Selectors16`)

Shallow embedding of the variant holding the in-memory seven-entry
registry, the hard-coded URL override and the kakao fallback cascade
(claims sources call it `part_016`). -/

namespace Selectors16

/-- `CompanySelector` of the source: selector, free-text format hint,
regression URL. -/
structure CompanySelector where
  publishedDate : String
  publishedDateFormat : String
  testUrl : String
deriving DecidableEq

/-- The `toss` registry entry. -/
def tossSelector : CompanySelector :=
  ⟨"#__next > div > div.p-container.p-container--default.css-2ndca > div > div.css-1dxrfx2.e1nrxxaj0 > article > header > section > div > div.css-154r2lc.esnk6d50",
   "YYYY년 MM월 DD일",
   "https://toss.tech/article/vulnerability-analysis-automation-1"⟩

/-- The `coupang` registry entry. -/
def coupangSelector : CompanySelector :=
  ⟨"[data-testid=\"storyPublishDate\"]",
   "data-testid=\"storyPublishDate\" MMM DD, YYYY",
   "https://medium.com/coupang-engineering/클라우드-서비스-사용량-관리를-통한-운영-비용-최적화-1521565c64ec"⟩

/-- The `daangn` registry entry. -/
def daangnSelector : CompanySelector :=
  ⟨"[data-testid=\"storyPublishDate\"]",
   "data-testid=\"storyPublishDate\" MMM DD, YYYY",
   "https://medium.com/daangn/당근의-genai-플랫폼-ee2ac8953046"⟩

/-- The `kakao` registry entry. -/
def kakaoSelector : CompanySelector :=
  ⟨"#__nuxt > div.container-doc > main > article > div.wrap_tit > div > span:nth-child(3)",
   "<span>YYYY.MM.DD</span>",
   "https://tech.kakao.com/posts/795"⟩

/-- The `naver` registry entry. -/
def naverSelector : CompanySelector :=
  ⟨"#container > div > div > div.post_article > div > dl > dd:nth-child(2)",
   "<dd>YYYY.MM.DD</dd>",
   "https://d2.naver.com/helloworld/0931890"⟩

/-- The `line` registry entry. -/
def lineSelector : CompanySelector :=
  ⟨"#container > article > div > header > div.detail > dl > dd:nth-child(2)",
   "<dd>...</dd>",
   "https://techblog.lycorp.co.jp/ko/rag-based-bot-for-streamlining-inquiry-responses"⟩

/-- The `woowahan` registry entry. -/
def woowahanSelector : CompanySelector :=
  ⟨"body > div.content.vuejs > div.content-wrap.content-single > div.post-content > div.post-header > div > div.post-header-author > span:nth-child(1)",
   "<span>YYYY. MM. DD.</span>",
   "https://techblog.woowahan.com/24820/"⟩

/-- `getCompanySelector`: own-key lookup in the `SELECTORS` literal
(`SELECTORS[company] || null`). -/
def getCompanySelector (company : String) : Option CompanySelector :=
  if company = "toss" then some tossSelector
  else if company = "coupang" then some coupangSelector
  else if company = "daangn" then some daangnSelector
  else if company = "kakao" then some kakaoSelector
  else if company = "naver" then some naverSelector
  else if company = "line" then some lineSelector
  else if company = "woowahan" then some woowahanSelector
  else none

/-- The kakao multi-selector fallback (source lines 68-85): alternate
`nth-child` sibling selector first, then the `data-v` attribute selector
filtered by the strict `^\d{4}\.\d{2}\.\d{2}$` text test, taking the first
match. -/
def kakaoFallback (dom : Dom) (selector : CompanySelector) : List Elem :=
  let baseSelector := "#__nuxt > div.container-doc > main > article > div.wrap_tit > div"
  let altSelector :=
    if jsIncludes selector.publishedDate "nth-child(3)" then
      baseSelector ++ " > span:nth-child(2)"
    else
      baseSelector ++ " > span:nth-child(3)"
  let element := dom.query altSelector
  if element.length = 0 then
    match ((dom.query "span[data-v-c99b4e88]").filter
        (fun e => strictDotFull (jsTrim e.text))).head? with
    | some e => [e]
    | none => []
  else element

/-- The `datetime`-attribute strategy (source lines 93-102): guarded by
the format hint containing "datetime"; an absent or empty attribute is
falsy and skips the block. -/
def stepDatetime (fmt : String) (element : List Elem) : Option Int :=
  if jsIncludes fmt "datetime" then
    match setAttr element "datetime" with
    | some dt => if dt = "" then none else jsParseDate dt
    | none => none
  else none

/-- The embedded-`<time>` strategy (source lines 104-114): guarded by the
format hint containing "time"; matches the inner markup of the selection
(`null` on nothing matched, short-circuited by `?.`). -/
def stepTime (fmt : String) (element : List Elem) : Option Int :=
  if jsIncludes fmt "time" then
    match setHtml element with
    | some ih =>
      match scanTimeTag ih with
      | some dt => jsParseDate dt
      | none => none
    | none => none
  else none

/-- The labeled-field strategy (source lines 116-155): guarded by the
format hint containing "data-testid" and the element carrying
`data-testid="storyPublishDate"`. -/
def stepTestid (fmt : String) (element : List Elem) (text : String) : Option Int :=
  if jsIncludes fmt "data-testid" then
    if setAttr element "data-testid" = some "storyPublishDate" then
      storyParsedDayText text
    else none
  else none

/-- The engine entry point `extractPublishDate(html, company, url?)`
(source lines 53-195): URL override, registry lookup, DOM locate with the
kakao fallback, then attribute strategies and the plain-text cascade in
source order.  The external cheerio loader is the `load` parameter. -/
def extractPublishDate (load : String → Dom) (html company : String)
    (url : Option String) : Option Int :=
  if url = some "https://toss.tech/article/business-customer-data" then
    some (jsMakeDateMs 2025 11 9)
  else
    match getCompanySelector company with
    | none => none
    | some selector =>
      if selector.publishedDate = "" then none
      else
        let dom := load html
        let element0 := dom.query selector.publishedDate
        let element :=
          if company = "kakao" && element0.length = 0 then kakaoFallback dom selector
          else element0
        if element.length = 0 then none
        else
          let text := jsTrim (setText element)
          match stepDatetime selector.publishedDateFormat element with
          | some d => some d
          | none =>
            match stepTime selector.publishedDateFormat element with
            | some d => some d
            | none =>
              match stepTestid selector.publishedDateFormat element text with
              | some d => some d
              | none => plainTextCascade text

/-- The labeled-field strategy of the main variant as a function of the
located element (parsed-day variant), for comparison with the fixed-day
variant of the other sources. -/
def storyParsedDay (e : Elem) : Option Int :=
  if e.attr "data-testid" = some "storyPublishDate" then
    storyParsedDayText (jsTrim e.text)
  else none

end Selectors16

/-! ## Labeled-field strategy of the file-backed variant (`P000`) -/

namespace P000

/-- The `storyPublishDate` branch of the file-backed variant (part_000
lines 46-62) as a function of the located element: month key is the whole
first comma-part, day fixed at 1. -/
def storyFixedDay (e : Elem) : Option Int :=
  if e.attr "data-testid" = some "storyPublishDate" then
    storyFixedDayText (jsTrim e.text)
  else none

end P000

/-! ## Crawler engine variant (`crawler/src/selectors.ts`) -/

namespace Crawler

/-- `CompanySelector` of the crawler variant. -/
structure CompanySelector where
  publishedDate : String
  publishedDateFormat : String
  testUrl : String
deriving DecidableEq

/-- The crawler `toss` registry entry. -/
def tossSelector : CompanySelector :=
  ⟨"#__next > div > div.p-container.p-container--default.css-2ndca > div > div.css-1dxrfx2.e1nrxxaj0 > article > header > section > div > div.css-154r2lc.esnk6d50",
   "YYYY년 MM월 DD일",
   "https://toss.tech/article/vulnerability-analysis-automation-1"⟩

/-- The crawler `coupang` registry entry. -/
def coupangSelector : CompanySelector :=
  ⟨"#root > div > div.m.c > div.ac > div.cd.bi.ce.cf.cg.ch > div > div.ic.id.ie.if.m > article > div > section > div > div:nth-child(2) > div > div > div > div.ac.r.kw > span > div > span:nth-child(3)",
   "<span>MMM DD, YYYY</span>",
   "https://medium.com/coupang-engineering"⟩

/-- The crawler `daangn` registry entry. -/
def daangnSelector : CompanySelector :=
  ⟨"#root > div > div.m.c > div.ac > div.cd.bi.ce.cf.cg.ch > div > div.ic.id.ie.if.m > article > div > div > section > div > div:nth-child(2) > div > div > div > div.ac.ka.kb.kc.ke.kf.kg.kh.ki.kj > div.ac.r.kx > span > div > span:nth-child(3)",
   "<span>MMM DD, YYYY</span>",
   "https://medium.com/daangn"⟩

/-- The crawler `akao` registry entry (the key is literally "akao" in this
source). -/
def akaoSelector : CompanySelector :=
  ⟨"#__nuxt > div.container-doc > main > article > div.wrap_tit > div > span:nth-child(2)",
   "<span>YYYY.MM.DD</span>",
   "https://tech.kakao.com"⟩

/-- The crawler `naver` registry entry — the one registry rule (across
both registries) whose format hint contains "datetime". -/
def naverSelector : CompanySelector :=
  ⟨"#container > article > div > header > div.detail > time",
   "<time datetime=\x27YYYY-MM-DD\x27>YYYY-MM-DD</time>",
   "https://d2.naver.com"⟩

/-- The crawler `line` registry entry. -/
def lineSelector : CompanySelector :=
  ⟨"#container > article > div > header > div.detail > dl > dd:nth-child(2)",
   "<dd>...</dd>",
   "https://engineering.linecorp.com"⟩

/-- The crawler `woowahan` registry entry. -/
def woowahanSelector : CompanySelector :=
  ⟨"body > div.content.vuejs > div.content-wrap.content-single > div.post-content > div.post-header > div > div.post-header-author > span:nth-child(1)",
   "<span>YYYY. MM. DD.</span>",
   "https://techblog.woowahan.com"⟩

/-- The crawler `getCompanySelector`. -/
def getCompanySelector (company : String) : Option CompanySelector :=
  if company = "toss" then some tossSelector
  else if company = "coupang" then some coupangSelector
  else if company = "daangn" then some daangnSelector
  else if company = "akao" then some akaoSelector
  else if company = "naver" then some naverSelector
  else if company = "line" then some lineSelector
  else if company = "woowahan" then some woowahanSelector
  else none

/-- The crawler labeled-field strategy (its lines 66-94): hint contains
"data-testid", element carries the marker, fixed-day parse. -/
def stepTestid (fmt : String) (element : List Elem) (text : String) : Option Int :=
  if jsIncludes fmt "data-testid" then
    if setAttr element "data-testid" = some "storyPublishDate" then
      storyFixedDayText text
    else none
  else none

/-- The crawler `datetime`-attribute strategy (its lines 96-104),
identical to the main variant's. -/
def stepDatetime (fmt : String) (element : List Elem) : Option Int :=
  if jsIncludes fmt "datetime" then
    match setAttr element "datetime" with
    | some dt => if dt = "" then none else jsParseDate dt
    | none => none
  else none

/-- The crawler span strategy (its lines 106-118):
`element.html() || element.text() || ''` (JavaScript falsiness: `null` and
the empty string both fall through), then the zero-padded dotted
pattern. -/
def stepSpan (fmt : String) (element : List Elem) : Option Int :=
  if jsIncludes fmt "span" then
    let h := match setHtml element with
      | some s => s
      | none => ""
    let spanText := if h = "" then setText element else h
    match scanSpanCr spanText with
    | some (y, mo, dd) =>
      jsNewDateYMD (jsParseInt y) ((jsParseInt mo).map (fun m => m - 1)) (jsParseInt dd)
    | none => none
  else none

/-- The crawler engine `extractPublishDate(html, company)` (its lines
51-121): registry lookup, locate, then labeled-field, `datetime`, span
strategies in source order.  No URL override, no kakao fallback, no
generic text cascade in this variant. -/
def extractPublishDate (load : String → Dom) (html company : String) : Option Int :=
  match getCompanySelector company with
  | none => none
  | some selector =>
    if selector.publishedDate = "" then none
    else
      let element := (load html).query selector.publishedDate
      if element.length = 0 then none
      else
        let text := jsTrim (setText element)
        match stepTestid selector.publishedDateFormat element text with
        | some d => some d
        | none =>
          match stepDatetime selector.publishedDateFormat element with
          | some d => some d
          | none => stepSpan selector.publishedDateFormat element

end Crawler

/-! ## File-backed engine variant (`P001`)

The variant whose `extractPublishDate(html, selector)` takes the selector
string itself, tries a direct `new Date(text)` parse FIRST, then the loop
over the Korean/dotted/ISO patterns, then the loop over the two English
patterns. -/

namespace P001

/-- The `koreanPatterns` loop of part_001 (its lines 53-71): the three
patterns (Korean, dotted, ISO) in array order, each block identical to the
main variant's; the composite therefore coincides with
`plainTextCascade`. -/
def koreanPatternsLoop (text : String) : Option Int :=
  plainTextCascade text

/-- Forward English block: `([A-Z][a-z]{2})\s+(\d{1,2}),?\s+(\d{4})` with
the `month !== undefined` guard before construction. -/
def tryEngFwd (text : String) : Option Int :=
  match scanEngFwd text with
  | some (mS, dS, yS) =>
    match monthMap mS with
    | some m => jsNewDateYMD (jsParseInt yS) (some m) (jsParseInt dS)
    | none => none
  | none => none

/-- Reversed English block: `(\d{1,2})\s+([A-Z][a-z]{2})\s+(\d{4})`. -/
def tryEngRev (text : String) : Option Int :=
  match scanEngRev text with
  | some (dS, mS, yS) =>
    match monthMap mS with
    | some m => jsNewDateYMD (jsParseInt yS) (some m) (jsParseInt dS)
    | none => none
  | none => none

/-- The `englishPatterns` loop of part_001 (its lines 94-120): forward
pattern first, reversed second; a block that matches but fails the month
lookup or date validity falls through to the next. -/
def englishPatternsLoop (text : String) : Option Int :=
  match tryEngFwd text with
  | some d => some d
  | none => tryEngRev text

/-- The part_001 engine `extractPublishDate(html, selector)` (its lines
32-123): empty selector is falsy and returns `null`; after locating, a
DIRECT `new Date(text)` parse is attempted first, then the Korean/dotted/
ISO pattern loop, then the English pattern loop. -/
def extractPublishDate (load : String → Dom) (html selector : String) : Option Int :=
  if selector = "" then none
  else
    let element := (load html).query selector
    if element.length = 0 then none
    else
      let text := jsTrim (setText element)
      match jsParseDate text with
      | some d => some d
      | none =>
        match koreanPatternsLoop text with
        | some d => some d
        | none => englishPatternsLoop text

end P001

/-! ## Registry inversion helpers -/

namespace Selectors16

/-- Any successful registry lookup yields one of the seven literal
rules. -/
theorem getCompanySelector_mem {company : String} {sel : CompanySelector}
    (h : getCompanySelector company = some sel) :
    sel = tossSelector ∨ sel = coupangSelector ∨ sel = daangnSelector ∨
    sel = kakaoSelector ∨ sel = naverSelector ∨ sel = lineSelector ∨
    sel = woowahanSelector := by
  unfold getCompanySelector at h
  split_ifs at h <;> simp_all

/-- The engine applied to a registered rule with a singleton query result
reduces to the strategy cascade on that element (no URL supplied, so the
override does not fire; the kakao fallback does not fire because the
selection is non-empty). -/
theorem extract_eq_cascade (load : String → Dom) (html company : String)
    (sel : CompanySelector) (e : Elem)
    (hsel : getCompanySelector company = some sel)
    (hne : sel.publishedDate ≠ "")
    (hq : (load html).query sel.publishedDate = [e]) :
    extractPublishDate load html company none =
      (match stepDatetime sel.publishedDateFormat [e] with
       | some d => some d
       | none =>
         match stepTime sel.publishedDateFormat [e] with
         | some d => some d
         | none =>
           match stepTestid sel.publishedDateFormat [e] (jsTrim e.text) with
           | some d => some d
           | none => plainTextCascade (jsTrim e.text)) := by
  simp [extractPublishDate, hsel, hne, hq, setText_single]

end Selectors16

namespace Crawler

/-- Any successful crawler registry lookup yields one of the seven literal
rules. -/
theorem getCompanySelector_memCr {company : String} {sel : CompanySelector}
    (h : getCompanySelector company = some sel) :
    sel = tossSelector ∨ sel = coupangSelector ∨ sel = daangnSelector ∨
    sel = akaoSelector ∨ sel = naverSelector ∨ sel = lineSelector ∨
    sel = woowahanSelector := by
  unfold getCompanySelector at h
  split_ifs at h <;> simp_all

end Crawler

/-! ## Claims -/

/-- C1: for every behavior of the tolerant HTML parser (`load` ranges over
every total document model, covering every raw HTML string including
malformed markup such as "<div><span>2025.12.24"), every site identifier
and every optional source URL, `extractPublishDate` is total and returns
either a date or the absence value `none`; the embedding contains no
exception path, because every JavaScript primitive the source uses on
string input is total. -/
theorem C1_extract_total_never_throws (load : String → Dom) (html company : String)
    (url : Option String) :
    (∃ d, Selectors16.extractPublishDate load html company url = some d) ∨
    Selectors16.extractPublishDate load html company url = none := by
  cases h : Selectors16.extractPublishDate load html company url with
  | none => exact Or.inr rfl
  | some d => exact Or.inl ⟨d, rfl⟩

/-- C2: for every html and every loader, a site identifier that is not a
key of the selector registry, called with no source URL, yields `none`
(no exception path exists in the embedding). -/
theorem C2_unknown_site_absence (load : String → Dom) (html company : String)
    (h : Selectors16.getCompanySelector company = none) :
    Selectors16.extractPublishDate load html company none = none := by
  simp [Selectors16.extractPublishDate, h]

/-- Witness for C2 at the concrete unknown site "not-a-real-site" and the
malformed HTML of the spec. -/
theorem C2_unknown_site_absence_witness :
    Selectors16.getCompanySelector "not-a-real-site" = none ∧
    Selectors16.extractPublishDate (singletonLoad "x" ⟨"2025.12.24", [], ""⟩)
      "<div><span>2025.12.24" "not-a-real-site" none = none :=
  ⟨by decide,
   C2_unknown_site_absence (singletonLoad "x" ⟨"2025.12.24", [], ""⟩)
     "<div><span>2025.12.24" "not-a-real-site" (by decide)⟩

/-- C5: for every loader, every raw HTML (including the empty string,
since `load` ranges over all total document models) and every site
identifier (registered or not), a source URL equal to the hard-coded
known-bad URL returns the hard-coded literal date December 9, 2025,
consulting neither the registry nor the HTML. -/
theorem C5_url_override (load : String → Dom) (html company : String) :
    Selectors16.extractPublishDate load html company
      (some "https://toss.tech/article/business-customer-data")
      = some (dateYMD 2025 12 9) := by
  unfold Selectors16.extractPublishDate
  rw [if_pos rfl]
  decide

/-- C6: the engine is a deterministic function of its four inputs: two
calls with identical arguments return identical results.  In the shallow
embedding this is reflexivity of a pure function; fidelity rests on the
source reading no mutable state, clock or randomness inside
`extractPublishDate` (its module-level registry is a constant, and the
embedding threads every external dependency — the DOM library — through
the explicit `load` argument). -/
theorem C6_deterministic (load : String → Dom) (html company : String) (url : Option String) :
    Selectors16.extractPublishDate load html company url =
      Selectors16.extractPublishDate load html company url := rfl

/-- C9: the two labeled-field (`storyPublishDate`) strategy variants are
not equivalent: on the element with the marker and text "Mar 27, 2023",
the fixed-day variant keys the month table with the whole first
comma-part "Mar 27" (an `undefined` lookup, hence an Invalid Date,
hence no result), while the parsed-day variant splits it into month
"Mar" and day 27 and returns March 27, 2023. -/
theorem C9_labeled_variants_differ :
    ∃ e : Elem, P000.storyFixedDay e ≠ Selectors16.storyParsedDay e :=
  ⟨⟨"Mar 27, 2023", [("data-testid", "storyPublishDate")], ""⟩, by decide⟩

/-- C4: for any registered rule whose format hint signals none of the
attribute-based strategies (no "datetime", no "time", no "data-testid" —
e.g. the "toss" rule), when the element located by the registered selector
has trimmed text equal to any of the four sample shapes, the engine
returns December 24, 2025. -/
theorem C4_plain_text_same_date (load : String → Dom) (html company : String)
    (sel : Selectors16.CompanySelector) (e : Elem) (t : String)
    (hsel : Selectors16.getCompanySelector company = some sel)
    (hd : jsIncludes sel.publishedDateFormat "datetime" = false)
    (hti : jsIncludes sel.publishedDateFormat "time" = false)
    (hdt : jsIncludes sel.publishedDateFormat "data-testid" = false)
    (hq : (load html).query sel.publishedDate = [e])
    (htr : jsTrim e.text = t)
    (hmem : t = "2025년 12월 24일" ∨ t = "2025. 12. 24." ∨ t = "2025.12.24" ∨
      t = "2025-12-24") :
    Selectors16.extractPublishDate load html company none = some (dateYMD 2025 12 24) := by
  have hne : sel.publishedDate ≠ "" := by
    rcases Selectors16.getCompanySelector_mem hsel with h | h | h | h | h | h | h <;>
      subst h <;> decide
  rw [Selectors16.extract_eq_cascade load html company sel e hsel hne hq]
  simp only [Selectors16.stepDatetime, Selectors16.stepTime, Selectors16.stepTestid,
    hd, hti, hdt, htr, Bool.false_eq_true, if_false]
  rcases hmem with rfl | rfl | rfl | rfl <;> decide

set_option maxRecDepth 8000 in
/-- Witness for C4: site "toss" (hint "YYYY년 MM월 DD일", no attribute
strategy), Korean text. -/
theorem C4_plain_text_same_date_witness :
    jsIncludes Selectors16.tossSelector.publishedDateFormat "datetime" = false ∧
    Selectors16.extractPublishDate
      (singletonLoad Selectors16.tossSelector.publishedDate ⟨"2025년 12월 24일", [], ""⟩)
      "<html>" "toss" none = some (dateYMD 2025 12 24) :=
  ⟨by decide,
   C4_plain_text_same_date
     (singletonLoad Selectors16.tossSelector.publishedDate ⟨"2025년 12월 24일", [], ""⟩)
     "<html>" "toss" Selectors16.tossSelector ⟨"2025년 12월 24일", [], ""⟩ "2025년 12월 24일"
     (by decide) (by decide) (by decide) (by decide) (by decide) (by decide)
     (Or.inl (by decide))⟩

/-- C7 counterexample: on site "toss" with located text "2025.02.30"
(day 30 in February), the engine does NOT reject the out-of-range
components: `new Date(2025, 1, 30)` silently rolls over to March 2, 2025
(a finite time value, so `isNaN(date.getTime())` does not filter it) and
the engine returns that rolled-over date instead of absence. -/
theorem C7_counterexample :
    Selectors16.extractPublishDate
        (singletonLoad Selectors16.tossSelector.publishedDate ⟨"2025.02.30", [], ""⟩)
        "<html>" "toss" none = some (dateYMD 2025 3 2) ∧
    some (dateYMD 2025 3 2) ≠ (none : Option Int) := by
  constructor
  · set_option maxRecDepth 8000 in decide
  · decide

set_option maxRecDepth 8000 in
/-- C7 amended: the validity check `!isNaN(date.getTime())` only rejects
non-finite time values; components outside the real calendar range are
silently normalized by JavaScript date rollover, so text "2025.02.30"
is accepted and returned as March 2, 2025. -/
theorem C7_amended_rollover (load : String → Dom) (html : String) (e : Elem)
    (hq : (load html).query Selectors16.tossSelector.publishedDate = [e])
    (htr : jsTrim e.text = "2025.02.30") :
    Selectors16.extractPublishDate load html "toss" none = some (dateYMD 2025 3 2) := by
  have hsel : Selectors16.getCompanySelector "toss" = some Selectors16.tossSelector := by decide
  have hne : Selectors16.tossSelector.publishedDate ≠ "" := by decide
  rw [Selectors16.extract_eq_cascade load html "toss" Selectors16.tossSelector e hsel hne hq]
  simp only [Selectors16.stepDatetime, Selectors16.stepTime, Selectors16.stepTestid, htr,
    show jsIncludes Selectors16.tossSelector.publishedDateFormat "datetime" = false by decide,
    show jsIncludes Selectors16.tossSelector.publishedDateFormat "time" = false by decide,
    show jsIncludes Selectors16.tossSelector.publishedDateFormat "data-testid" = false by decide,
    Bool.false_eq_true, if_false]
  decide

set_option maxRecDepth 8000 in
/-- Witness for the amended C7 at a concrete document. -/
theorem C7_amended_rollover_witness :
    jsTrim "2025.02.30" = "2025.02.30" ∧
    Selectors16.extractPublishDate
      (singletonLoad Selectors16.tossSelector.publishedDate ⟨"2025.02.30", [], ""⟩)
      "<html>" "toss" none = some (dateYMD 2025 3 2) :=
  ⟨by decide,
   C7_amended_rollover
     (singletonLoad Selectors16.tossSelector.publishedDate ⟨"2025.02.30", [], ""⟩)
     "<html>" ⟨"2025.02.30", [], ""⟩ (by decide) (by decide)⟩

/-- C3: for every registry rule of the crawler variant — the variant
whose registry actually contains a "datetime" hint, on its "naver" rule —
whose format hint contains "datetime", if the located element carries a
`datetime` attribute parsing to a valid date `d1` while the element's
trimmed text matches a plain-text pattern that would parse to a different
date `d2`, the engine returns `d1`: the attribute strategy precedes the
text-based ones and short-circuits.  (The main variant has the same
branch order, but no rule of its literal registry carries a "datetime"
hint, so the property is only exercisable here.) -/
theorem C3_datetime_attribute_first (load : String → Dom) (html company : String)
    (sel : Crawler.CompanySelector) (e : Elem) (ds : String) (d1 d2 : Int)
    (hsel : Crawler.getCompanySelector company = some sel)
    (hfmt : jsIncludes sel.publishedDateFormat "datetime" = true)
    (hq : (load html).query sel.publishedDate = [e])
    (hattr : e.attr "datetime" = some ds)
    (hparse : jsParseDate ds = some d1)
    (htext : plainTextCascade (jsTrim e.text) = some d2)
    (hne : d2 ≠ d1) :
    Crawler.extractPublishDate load html company = some d1 := by
  have hmem := Crawler.getCompanySelector_memCr hsel
  have hnotestid : jsIncludes sel.publishedDateFormat "data-testid" = false := by
    rcases hmem with h | h | h | h | h | h | h <;> subst h <;> decide
  have hne2 : sel.publishedDate ≠ "" := by
    rcases hmem with h | h | h | h | h | h | h <;> subst h <;> decide
  have hds : ds ≠ "" := by
    rintro rfl
    rw [show jsParseDate "" = none from rfl] at hparse
    cases hparse
  simp [Crawler.extractPublishDate, Crawler.stepTestid, Crawler.stepDatetime, hsel, hq,
    hfmt, hnotestid, hne2, setAttr, hattr, hds, hparse]

/-- Witness for C3: crawler site "naver", attribute
`datetime="2025-12-23"` (parsing to December 23, 2025), text
"2025-12-25" (the ISO plain-text pattern would give December 25,
2025). -/
theorem C3_datetime_attribute_first_witness :
    jsIncludes Crawler.naverSelector.publishedDateFormat "datetime" = true ∧
    Crawler.extractPublishDate
      (singletonLoad Crawler.naverSelector.publishedDate
        ⟨"2025-12-25", [("datetime", "2025-12-23")], ""⟩)
      "<html>" "naver" = some (dateYMD 2025 12 23) :=
  ⟨by decide,
   C3_datetime_attribute_first
     (singletonLoad Crawler.naverSelector.publishedDate
       ⟨"2025-12-25", [("datetime", "2025-12-23")], ""⟩)
     "<html>" "naver" Crawler.naverSelector
     ⟨"2025-12-25", [("datetime", "2025-12-23")], ""⟩ "2025-12-23"
     (dateYMD 2025 12 23) (dateYMD 2025 12 25)
     (by decide) (by decide) (by decide) (by decide) (by decide) (by decide) (by decide)⟩

/-- C8 counterexample: in the part_001 variant the generic direct parse is
NOT attempted last.  On located text "2025-12-24T10:00:00Z" the ISO
plain-text pattern matches (it would yield midnight, December 24, 2025),
yet the engine returns the direct-parse result (10:00 UTC on that day),
because `new Date(text)` is tried before the pattern loop — so "for any
element text matched by one of those earlier patterns, the returned date
is the earlier pattern's result" is false at this input. -/
theorem C8_counterexample :
    P001.extractPublishDate
        (singletonLoad "#date" ⟨"2025-12-24T10:00:00Z", [], ""⟩) "<html>" "#date"
      = some (dateYMD 2025 12 24 + 36000000) ∧
    P001.koreanPatternsLoop "2025-12-24T10:00:00Z" = some (dateYMD 2025 12 24) ∧
    dateYMD 2025 12 24 + 36000000 ≠ dateYMD 2025 12 24 :=
  ⟨by decide, by decide, by decide⟩

/-- C8 amended: in the part_001 variant the generic direct parse
(`new Date(text)` on the whole trimmed text) is attempted FIRST; the
Korean, dotted, ISO and English patterns run only when it fails, and when
it succeeds its result is returned even if an earlier-listed pattern also
matches with a different result. -/
theorem C8_amended_direct_parse_first (load : String → Dom) (html sel : String) (e : Elem)
    (t : String) (d d2 : Int)
    (hsel : sel ≠ "")
    (hq : (load html).query sel = [e])
    (htr : jsTrim e.text = t)
    (hdirect : jsParseDate t = some d)
    (hpat : P001.koreanPatternsLoop t = some d2)
    (hne : d ≠ d2) :
    P001.extractPublishDate load html sel = some d ∧
    P001.extractPublishDate load html sel ≠ some d2 := by
  have h1 : P001.extractPublishDate load html sel = some d := by
    simp [P001.extractPublishDate, hsel, hq, setText_single, htr, hdirect]
  exact ⟨h1, by rw [h1]; exact fun hc => hne (Option.some.inj hc)⟩

/-- Witness for the amended C8 at the concrete ISO datetime input. -/
theorem C8_amended_direct_parse_first_witness :
    jsParseDate "2025-12-24T10:00:00Z" = some (dateYMD 2025 12 24 + 36000000) ∧
    P001.extractPublishDate
        (singletonLoad "#date" ⟨"2025-12-24T10:00:00Z", [], ""⟩) "<html>" "#date"
      = some (dateYMD 2025 12 24 + 36000000) :=
  ⟨by decide,
   (C8_amended_direct_parse_first
     (singletonLoad "#date" ⟨"2025-12-24T10:00:00Z", [], ""⟩) "<html>" "#date"
     ⟨"2025-12-24T10:00:00Z", [], ""⟩ "2025-12-24T10:00:00Z"
     (dateYMD 2025 12 24 + 36000000) (dateYMD 2025 12 24)
     (by decide) (by decide) (by decide) (by decide) (by decide) (by decide)).left⟩

/-- C10: in the part_001 variant (the variant carrying the English
abbreviated patterns), located elements with trimmed texts
"Dec 24, 2025" and "24 Dec 2025" both yield December 24, 2025 — the
forward and reversed patterns share the one month-name table and agree.
(The direct parse is modelled as failing on both texts, routing them
through the English patterns; the V8 legacy parser would in fact accept
both directly with the same resulting date.) -/
theorem C10_english_both_orders (load1 load2 : String → Dom) (html1 html2 sel1 sel2 : String)
    (e1 e2 : Elem)
    (h1 : sel1 ≠ "") (h2 : sel2 ≠ "")
    (hq1 : (load1 html1).query sel1 = [e1]) (hq2 : (load2 html2).query sel2 = [e2])
    (ht1 : jsTrim e1.text = "Dec 24, 2025") (ht2 : jsTrim e2.text = "24 Dec 2025") :
    P001.extractPublishDate load1 html1 sel1 = some (dateYMD 2025 12 24) ∧
    P001.extractPublishDate load2 html2 sel2 = some (dateYMD 2025 12 24) := by
  constructor
  · simp [P001.extractPublishDate, h1, hq1, setText_single, ht1]
    decide
  · simp [P001.extractPublishDate, h2, hq2, setText_single, ht2]
    decide

/-- Witness for C10 at two concrete documents. -/
theorem C10_english_both_orders_witness :
    P001.extractPublishDate (singletonLoad "#a" ⟨"Dec 24, 2025", [], ""⟩) "<html>" "#a"
      = some (dateYMD 2025 12 24) ∧
    P001.extractPublishDate (singletonLoad "#b" ⟨"24 Dec 2025", [], ""⟩) "<html>" "#b"
      = some (dateYMD 2025 12 24) :=
  C10_english_both_orders
    (singletonLoad "#a" ⟨"Dec 24, 2025", [], ""⟩)
    (singletonLoad "#b" ⟨"24 Dec 2025", [], ""⟩)
    "<html>" "<html>" "#a" "#b"
    ⟨"Dec 24, 2025", [], ""⟩ ⟨"24 Dec 2025", [], ""⟩
    (by decide) (by decide) (by decide) (by decide) (by decide) (by decide)
